import Mathlib

/-!
Shallow embedding of `src/render.rs` (rakoune's rendering core).

The Rust code drives wgpu.  We embed the CPU-side state (`RenderState`) and
model the GPU-visible effects of a render call as an explicit trace of
recorded commands together with an association-list GPU memory mapping
buffer ids to their byte contents (bytes as `Nat`).  Machine handles
(surface, adapter, device, queue, texture views) are opaque `Nat` ids.
-/

namespace Rakoune

/-- winit's `PhysicalSize<u32>`: physical window size in pixels. -/
structure PhysicalSize where
  width : Nat
  height : Nat
deriving DecidableEq

/-- `wgpu::TextureUsage` (only the variant this program uses). -/
inductive TextureUsage where
  | outputAttachment
deriving DecidableEq

/-- `wgpu::TextureFormat` (only the variant this program uses). -/
inductive TextureFormat where
  | bgra8UnormSrgb
deriving DecidableEq

/-- `wgpu::PresentMode` (only the variant this program uses). -/
inductive PresentMode where
  | fifo
deriving DecidableEq

/-- `wgpu::FrontFace`. -/
inductive FrontFace where
  | ccw
  | cw
deriving DecidableEq

/-- `wgpu::CullMode`. -/
inductive CullMode where
  | noCull
  | front
  | back
deriving DecidableEq

/-- `wgpu::PrimitiveTopology`. -/
inductive PrimitiveTopology where
  | pointList
  | lineList
  | lineStrip
  | triangleList
  | triangleStrip
deriving DecidableEq

/-- `wgpu::BlendFactor` (the factors appearing in `BlendDescriptor::REPLACE`). -/
inductive BlendFactor where
  | zero
  | one
deriving DecidableEq

/-- `wgpu::BlendOperation`. -/
inductive BlendOperation where
  | add
deriving DecidableEq

/-- `wgpu::BlendDescriptor`. -/
structure BlendDescriptor where
  src_factor : BlendFactor
  dst_factor : BlendFactor
  operation : BlendOperation
deriving DecidableEq

/-- `wgpu::BlendDescriptor::REPLACE` = `{ src: One, dst: Zero, op: Add }`. -/
def BlendDescriptor.REPLACE : BlendDescriptor :=
  ⟨BlendFactor.one, BlendFactor.zero, BlendOperation.add⟩

/-- `wgpu::IndexFormat`. -/
inductive IndexFormat where
  | uint16
  | uint32
deriving DecidableEq

/-- `wgpu::LoadOp`. -/
inductive LoadOp where
  | clear
  | load
deriving DecidableEq

/-- `wgpu::StoreOp`. -/
inductive StoreOp where
  | clear
  | store
deriving DecidableEq

/-- `wgpu::Color` (f64 components; the program only uses the exact constant
`Color::BLUE`, whose components are exactly representable, so `Nat` fields). -/
structure Color where
  r : Nat
  g : Nat
  b : Nat
  a : Nat
deriving DecidableEq

/-- `wgpu::Color::BLUE` = `{ r: 0.0, g: 0.0, b: 1.0, a: 1.0 }`. -/
def Color.BLUE : Color := ⟨0, 0, 1, 1⟩

/-- `wgpu::SwapChainDescriptor` (render.rs lines 61-67, mutated by `resize`). -/
structure SwapChainDescriptor where
  usage : TextureUsage
  format : TextureFormat
  width : Nat
  height : Nat
  present_mode : PresentMode
deriving DecidableEq

/-- A swap chain, as created by `device.create_swap_chain(&surface, &sc_desc)`:
a value determined by the surface and a snapshot of the descriptor. -/
structure SwapChain where
  surface : Nat
  desc : SwapChainDescriptor
deriving DecidableEq

/-- `Device::create_swap_chain`. -/
def createSwapChain (surface : Nat) (desc : SwapChainDescriptor) : SwapChain :=
  ⟨surface, desc⟩

/-- `wgpu::RasterizationStateDescriptor` (render.rs lines 94-100).  The two
f32 bias fields are exact constants `0.0`, embedded as rationals. -/
structure RasterizationStateDescriptor where
  front_face : FrontFace
  cull_mode : CullMode
  depth_bias : Int
  depth_bias_slope_scale : ℚ
  depth_bias_clamp : ℚ
deriving DecidableEq

/-- `wgpu::ColorStateDescriptor` (render.rs lines 103-108).
`write_mask` is the raw `ColorWrite` bit mask (`ALL = 0b1111 = 15`). -/
structure ColorStateDescriptor where
  format : TextureFormat
  color_blend : BlendDescriptor
  alpha_blend : BlendDescriptor
  write_mask : Nat
deriving DecidableEq

/-- The pipeline configuration recorded by `create_render_pipeline`
(render.rs lines 83-121).  `sample_mask` is the raw `!0u32` value;
`depth_stencil_state` is `None` in this program, embedded as `Option Unit`. -/
structure RenderPipelineDescriptor where
  rasterization_state : Option RasterizationStateDescriptor
  primitive_topology : PrimitiveTopology
  color_states : List ColorStateDescriptor
  index_format : IndexFormat
  depth_stencil_state : Option Unit
  sample_count : Nat
  sample_mask : Nat
  alpha_to_coverage_enabled : Bool
deriving DecidableEq

/-- A GPU buffer handle: an id plus its fixed byte capacity. -/
structure Buffer where
  id : Nat
  size : Nat
deriving DecidableEq

/-- GPU memory: buffer id ↦ byte contents (bytes as `Nat`). -/
abbrev GpuMem := List (Nat × List Nat)

/-- Look a buffer's contents up in GPU memory. -/
def lookupBuf : GpuMem → Nat → Option (List Nat)
  | [], _ => Option.none
  | (i, c) :: rest, j => if i = j then some c else lookupBuf rest j

/-- Store a buffer's contents in GPU memory. -/
def setBuf : GpuMem → Nat → List Nat → GpuMem
  | [], j, c => [(j, c)]
  | (i, c) :: rest, j, c2 =>
      if i = j then (j, c2) :: rest else (i, c) :: setBuf rest j c2

/-- Overwrite `dst` with `src` starting at byte `offset`
(the semantics of a mapped-slice write and of a buffer-to-buffer copy). -/
def writeBytes (dst : List Nat) (offset : Nat) (src : List Nat) : List Nat :=
  dst.take offset ++ src ++ dst.drop (offset + src.length)

/-- The GPU commands this program records into its command encoders. -/
inductive GpuCommand where
  | copyBufferToBuffer (src srcOff dst dstOff size : Nat)
  | beginRenderPass (attachment : Nat) (loadOp : LoadOp) (storeOp : StoreOp)
      (clearColor : Color)
  | setPipeline (p : RenderPipelineDescriptor)
  | setVertexBuffer (slot buffer offset size : Nat)
  | draw (vertStart vertEnd instStart instEnd : Nat)
  | endRenderPass
deriving DecidableEq

/-- Effect of one GPU command on buffer memory.  Only the buffer copy writes
buffer memory; the render-pass commands read it (or write textures, which we
do not track). -/
def execCmd (m : GpuMem) : GpuCommand → GpuMem
  | GpuCommand.copyBufferToBuffer src srcOff dst dstOff size =>
      match lookupBuf m src, lookupBuf m dst with
      | some s, some d => setBuf m dst (writeBytes d dstOff ((s.drop srcOff).take size))
      | _, _ => m
  | GpuCommand.beginRenderPass _ _ _ _ => m
  | GpuCommand.setPipeline _ => m
  | GpuCommand.setVertexBuffer _ _ _ _ => m
  | GpuCommand.draw _ _ _ _ => m
  | GpuCommand.endRenderPass => m

/-- Run a command buffer (a list of commands) on GPU memory. -/
def execCmds (m : GpuMem) (cs : List GpuCommand) : GpuMem :=
  cs.foldl execCmd m

/-- Run one queue submission (a list of command buffers) in order. -/
def execCmdBufs (m : GpuMem) (bs : List (List GpuCommand)) : GpuMem :=
  bs.foldl execCmds m

/-- Run a sequence of queue submissions in order. -/
def execSubmissions (m : GpuMem) (ss : List (List (List GpuCommand))) : GpuMem :=
  ss.foldl execCmdBufs m

/-- Per-frame render errors (render.rs line 177 maps the failed image
acquisition to an io error carrying the text Timeout). -/
inductive RenderError where
  | timeout
deriving DecidableEq

/-- `RenderState` (render.rs lines 26-36).  Opaque machine handles are `Nat`
ids; the persistent vertex buffer is a handle plus capacity, its GPU-side
contents living in a `GpuMem`. -/
structure RenderState where
  surface : Nat
  adapter : Nat
  device : Nat
  queue : Nat
  sc_desc : SwapChainDescriptor
  swap_chain : SwapChain
  render_pipeline : RenderPipelineDescriptor
  vertex_buffer : Buffer
deriving DecidableEq

/-- The pipeline configuration built in `RenderState::new`
(render.rs lines 83-121), parameterised by `sc_desc.format`. -/
def initialPipeline (format : TextureFormat) : RenderPipelineDescriptor :=
  { rasterization_state :=
      some ⟨FrontFace.ccw, CullMode.back, 0, 0, 0⟩
    primitive_topology := PrimitiveTopology.triangleList
    color_states :=
      [⟨format, BlendDescriptor.REPLACE, BlendDescriptor.REPLACE, 15⟩]
    index_format := IndexFormat.uint32
    depth_stencil_state := Option.none
    sample_count := 1
    sample_mask := 4294967295
    alpha_to_coverage_enabled := false }

/-- The id `RenderState.new` gives the persistent vertex buffer. -/
def vertexBufferId : Nat := 0

/-- `RenderState::new` (render.rs lines 42-131), success path: the machine
handles obtained from the backend are passed in as ids.  Returns the state
together with the initial GPU memory: `create_buffer_with_data(&[0; 1024], …)`
creates the vertex buffer filled with 1024 zero bytes. -/
def RenderState.new (surface adapter device queue : Nat) (size : PhysicalSize) :
    RenderState × GpuMem :=
  let sc_desc : SwapChainDescriptor :=
    { usage := TextureUsage.outputAttachment
      format := TextureFormat.bgra8UnormSrgb
      width := size.width
      height := size.height
      present_mode := PresentMode.fifo }
  let swap_chain := createSwapChain surface sc_desc
  let render_pipeline := initialPipeline sc_desc.format
  let vertex_buffer : Buffer := ⟨vertexBufferId, 1024⟩
  (⟨surface, adapter, device, queue, sc_desc, swap_chain, render_pipeline,
    vertex_buffer⟩,
   setBuf [] vertexBufferId (List.replicate 1024 0))

/-- `RenderState::resize` (render.rs lines 133-139): set the descriptor's
width and height, then recreate the swap chain from the surface and the
updated descriptor.  (The `eprintln!` log line has no state effect.) -/
def RenderState.resize (s : RenderState) (into_size : PhysicalSize) : RenderState :=
  let sc_desc :=
    { s.sc_desc with width := into_size.width, height := into_size.height }
  { s with sc_desc := sc_desc
           swap_chain := createSwapChain s.surface sc_desc }

/-- The staging buffer created each frame is a fresh buffer, distinct from
the persistent vertex buffer: give it the successor id. -/
def stagingBufferId (s : RenderState) : Nat := s.vertex_buffer.id + 1

/-- The outcome of one `render` call: the state (the method never assigns to
`self`'s fields), GPU memory after the CPU-side mapped write of the staging
buffer, the returned result, and the queue submissions made (each submission
a list of command buffers, each command buffer a list of commands). -/
structure RenderOutcome where
  state : RenderState
  mem : GpuMem
  result : Except RenderError Unit
  submissions : List (List (List GpuCommand))

/-- `RenderState::render` (render.rs lines 141-203).
Inputs beyond the state: current GPU memory; `vertexBytes`, the serialized
bytes of `state.verticies` (`bytemuck::cast_slice`); `stagingInit`, the
unspecified initial contents of the freshly mapped 1024-byte staging buffer
(normalised to length 1024); `acquired`, `some view` when
`swap_chain.get_next_texture()` yields an image and `Option.none` on timeout.
Returns `Option.none` when the slice write
`data[..len].copy_from_slice(…)` would panic (`len > 1024`).
On timeout the recorded encoders are dropped and nothing is submitted; on
success exactly one submission carries the staging-upload command buffer then
the render command buffer (render.rs line 200). -/
def RenderState.render (s : RenderState) (mem : GpuMem)
    (vertexBytes stagingInit : List Nat) (acquired : Option Nat) :
    Option RenderOutcome :=
  if vertexBytes.length ≤ 1024 then
    let stagingId := stagingBufferId s
    let stagingContents :=
      writeBytes ((stagingInit ++ List.replicate 1024 0).take 1024) 0 vertexBytes
    let mem1 := setBuf mem stagingId stagingContents
    let uploadCmds : List GpuCommand :=
      [GpuCommand.copyBufferToBuffer stagingId 0 s.vertex_buffer.id 0 1024]
    match acquired with
    | Option.none =>
        some ⟨s, mem1, Except.error RenderError.timeout, []⟩
    | Option.some view =>
        some ⟨s, mem1, Except.ok (),
          [[uploadCmds,
            [GpuCommand.beginRenderPass view LoadOp.clear StoreOp.store Color.BLUE,
             GpuCommand.setPipeline s.render_pipeline,
             GpuCommand.setVertexBuffer 0 s.vertex_buffer.id 0 1024,
             GpuCommand.draw 0 6 0 1,
             GpuCommand.endRenderPass]]]⟩
  else
    Option.none

/-- A concrete state as built by `RenderState.new` on an 800×600 window. -/
def exState : RenderState := (RenderState.new 0 1 2 3 ⟨800, 600⟩).1

/-- The initial GPU memory matching `exState`. -/
def exMem : GpuMem := (RenderState.new 0 1 2 3 ⟨800, 600⟩).2

/-- Looking up the buffer just stored. -/
lemma lookupBuf_setBuf_self (m : GpuMem) (i : Nat) (c : List Nat) :
    lookupBuf (setBuf m i c) i = some c := by
  induction m with
  | nil => simp [setBuf, lookupBuf]
  | cons hd tl ih =>
      obtain ⟨j, d⟩ := hd
      by_cases h : j = i <;> simp [setBuf, lookupBuf, h, ih]

/-- Storing one buffer leaves the others' contents unchanged. -/
lemma lookupBuf_setBuf_ne (m : GpuMem) (i j : Nat) (c : List Nat) (h : i ≠ j) :
    lookupBuf (setBuf m i c) j = lookupBuf m j := by
  induction m with
  | nil => simp [setBuf, lookupBuf, h]
  | cons hd tl ih =>
      obtain ⟨k, d⟩ := hd
      by_cases hk : k = i
      · subst hk
        simp [setBuf, lookupBuf, h]
      · by_cases hj : k = j <;> simp [setBuf, lookupBuf, hk, hj, ih, Ne.symm h]


/-- The mapped staging buffer padded to its 1024-byte size has length 1024. -/
lemma length_padTo (junk : List Nat) :
    ((junk ++ List.replicate 1024 0).take 1024).length = 1024 := by
  simp only [List.length_take, List.length_append, List.length_replicate]
  omega

/-- A write at offset 0 yields the written bytes followed by the tail of the
original contents. -/
lemma writeBytes_zero_offset (padded data : List Nat) :
    writeBytes padded 0 data = data ++ padded.drop data.length := by
  simp only [writeBytes, List.take_zero, List.nil_append, Nat.zero_add]

/-- Writing at most 1024 bytes at offset 0 of a 1024-byte buffer keeps its
length. -/
lemma length_writeBytes_zero (padded data : List Nat)
    (h1 : padded.length = 1024) (h2 : data.length ≤ 1024) :
    (writeBytes padded 0 data).length = 1024 := by
  simp only [writeBytes, List.length_append, List.length_take, List.length_drop,
    List.take_zero, List.nil_append, Nat.zero_add, h1]
  omega

/-- A full-capacity copy between 1024-byte buffers replaces the destination's
contents with the source's. -/
lemma writeBytes_full (prev sc : List Nat)
    (hlen : prev.length = 1024) (hsc : sc.length = 1024) :
    writeBytes prev 0 ((sc.drop 0).take 1024) = sc := by
  rw [List.drop_zero, List.take_of_length_le (le_of_eq hsc)]
  simp only [writeBytes, List.take_zero, List.nil_append, Nat.zero_add, hsc]
  rw [List.drop_eq_nil_of_le (le_of_eq hlen), List.append_nil]

/-- Claim C1: every render call that succeeds makes exactly one queue
submission, holding exactly two command buffers with the staging-upload
command buffer (the staging-to-vertex-buffer copy) ordered before the render
command buffer (the render pass); upload work is never submitted after or
separately from the render work. -/
theorem render_single_submission_upload_then_render (s : RenderState)
    (mem : GpuMem) (data junk : List Nat) (v : Nat)
    (hdata : data.length ≤ 1024) :
    (s.render mem data junk (some v)).map RenderOutcome.submissions
      = some
          [[[GpuCommand.copyBufferToBuffer (stagingBufferId s) 0
               s.vertex_buffer.id 0 1024],
            [GpuCommand.beginRenderPass v LoadOp.clear StoreOp.store Color.BLUE,
             GpuCommand.setPipeline s.render_pipeline,
             GpuCommand.setVertexBuffer 0 s.vertex_buffer.id 0 1024,
             GpuCommand.draw 0 6 0 1,
             GpuCommand.endRenderPass]]] := by
  unfold RenderState.render
  rw [if_pos hdata]
  rfl

/-- Witness for C1 at a concrete frame. -/
theorem render_single_submission_upload_then_render_check :
    ([1, 2, 3, 4] : List Nat).length ≤ 1024 ∧
    (exState.render exMem [1, 2, 3, 4] (List.replicate 1024 7) (some 5)).map
        RenderOutcome.submissions
      = some
          [[[GpuCommand.copyBufferToBuffer (stagingBufferId exState) 0
               exState.vertex_buffer.id 0 1024],
            [GpuCommand.beginRenderPass 5 LoadOp.clear StoreOp.store Color.BLUE,
             GpuCommand.setPipeline exState.render_pipeline,
             GpuCommand.setVertexBuffer 0 exState.vertex_buffer.id 0 1024,
             GpuCommand.draw 0 6 0 1,
             GpuCommand.endRenderPass]]] :=
  ⟨by simp,
   render_single_submission_upload_then_render exState exMem [1, 2, 3, 4]
     (List.replicate 1024 7) 5 (by simp)⟩

/-- Claim C2 (amended): for a vertex stream of serialized length
`len ≤ 1024`, the bytes of the persistent vertex buffer observed by the
render pass (after the upload submission executes, before the draw) equal the
new stream's bytes on `[0, len)` followed by the freshly created staging
buffer's unspecified initial bytes on `[len, 1024)` — not the previous
frame's vertex-buffer contents, since the recorded copy always transfers the
staging buffer's full 1024 bytes. -/
theorem render_observed_bytes (s : RenderState)
    (mem : GpuMem) (prev data junk : List Nat) (v : Nat)
    (hprev : lookupBuf mem s.vertex_buffer.id = some prev)
    (hlen : prev.length = 1024) (hdata : data.length ≤ 1024) :
    (s.render mem data junk (some v)).map
        (fun out => lookupBuf (execSubmissions out.mem out.submissions)
          s.vertex_buffer.id)
      = some (some (data ++
          ((junk ++ List.replicate 1024 0).take 1024).drop data.length)) := by
  have hne : stagingBufferId s ≠ s.vertex_buffer.id := Nat.succ_ne_self _
  have hSC : (writeBytes ((junk ++ List.replicate 1024 0).take 1024) 0
      data).length = 1024 :=
    length_writeBytes_zero _ _ (length_padTo junk) hdata
  have h1 : lookupBuf
      (setBuf mem (stagingBufferId s)
        (writeBytes ((junk ++ List.replicate 1024 0).take 1024) 0 data))
      (stagingBufferId s)
      = some (writeBytes ((junk ++ List.replicate 1024 0).take 1024) 0 data) :=
    lookupBuf_setBuf_self _ _ _
  have h2 : lookupBuf
      (setBuf mem (stagingBufferId s)
        (writeBytes ((junk ++ List.replicate 1024 0).take 1024) 0 data))
      s.vertex_buffer.id
      = some prev := by
    rw [lookupBuf_setBuf_ne _ _ _ _ hne, hprev]
  unfold RenderState.render
  rw [if_pos hdata]
  simp only [Option.map_some']
  congr 1
  simp only [execSubmissions, execCmdBufs, execCmds, List.foldl]
  simp only [execCmd, h1, h2]
  rw [lookupBuf_setBuf_self,
    writeBytes_full prev _ hlen hSC,
    writeBytes_zero_offset]

/-- Witness for C2 at a concrete frame: previous contents all zero, four new
bytes, staging memory full of 8s. -/
theorem render_observed_bytes_check :
    lookupBuf exMem exState.vertex_buffer.id
      = some (List.replicate 1024 0) ∧
    (List.replicate 1024 (0 : Nat)).length = 1024 ∧
    ([1, 2, 3, 4] : List Nat).length ≤ 1024 ∧
    (exState.render exMem [1, 2, 3, 4] (List.replicate 1024 8) (some 11)).map
        (fun out => lookupBuf (execSubmissions out.mem out.submissions)
          exState.vertex_buffer.id)
      = some (some (([1, 2, 3, 4] : List Nat) ++
          ((List.replicate 1024 8 ++ List.replicate 1024 0).take 1024).drop
            ([1, 2, 3, 4] : List Nat).length)) :=
  ⟨rfl, by simp only [List.length_replicate], by simp,
   render_observed_bytes exState exMem (List.replicate 1024 0) [1, 2, 3, 4]
     (List.replicate 1024 8) 11 rfl (by simp only [List.length_replicate])
     (by simp)⟩

/-- Counterexample to C2 as stated: with previous vertex-buffer contents all
zero and staging memory full of 7s, after the frame's upload the observed
byte at index 4 (inside `[len, 1024)` for `len = 4`) is 7, not the previous
frame's 0: the tail equals the staging buffer's initial bytes, not the
previous contents. -/
theorem render_tail_not_previous_contents :
    (exState.render exMem [1, 2, 3, 4] (List.replicate 1024 7) (some 9)).map
        (fun out => (lookupBuf (execSubmissions out.mem out.submissions)
            exState.vertex_buffer.id).bind (fun c => c.get? 4))
      ≠ some ((lookupBuf exMem exState.vertex_buffer.id).bind
          (fun c => c.get? 4)) := by
  decide

/-- Claim C3: a render call returns an error exactly when image acquisition
times out; on that error nothing is submitted to the queue, the state's
persistent fields are unchanged (the method never assigns to them), and the
persistent vertex buffer's GPU contents are unchanged (only the fresh staging
buffer was written). -/
theorem render_error_iff_timeout (s : RenderState) (mem : GpuMem)
    (data junk : List Nat) (v : Nat) (hdata : data.length ≤ 1024) :
    (s.render mem data junk Option.none).map
        (fun out => (out.result, out.state, out.submissions,
                     lookupBuf out.mem s.vertex_buffer.id))
      = some (Except.error RenderError.timeout, s, [],
              lookupBuf mem s.vertex_buffer.id) ∧
    (s.render mem data junk (some v)).map (fun out => out.result)
      = some (Except.ok ()) := by
  constructor
  · unfold RenderState.render
    rw [if_pos hdata]
    simp only [Option.map_some']
    have hne : stagingBufferId s ≠ s.vertex_buffer.id := Nat.succ_ne_self _
    rw [lookupBuf_setBuf_ne _ _ _ _ hne]
  · unfold RenderState.render
    rw [if_pos hdata]
    rfl

/-- Witness for C3 at a concrete frame. -/
theorem render_error_iff_timeout_check :
    ([9] : List Nat).length ≤ 1024 ∧
    ((exState.render exMem [9] (List.replicate 1024 1) Option.none).map
        (fun out => (out.result, out.state, out.submissions,
                     lookupBuf out.mem exState.vertex_buffer.id))
      = some (Except.error RenderError.timeout, exState, [],
              lookupBuf exMem exState.vertex_buffer.id) ∧
    (exState.render exMem [9] (List.replicate 1024 1) (some 6)).map
        (fun out => out.result)
      = some (Except.ok ())) :=
  ⟨by simp,
   render_error_iff_timeout exState exMem [9] (List.replicate 1024 1) 6 (by simp)⟩

/-- Claim C4: the copy recorded from the staging buffer to the persistent
vertex buffer is always the full 1024-byte capacity from source offset 0 to
destination offset 0, whatever the serialized vertex data's length. -/
theorem render_copy_full_capacity (s : RenderState) (mem : GpuMem)
    (data junk : List Nat) (v : Nat) (hdata : data.length ≤ 1024) :
    (s.render mem data junk (some v)).map
        (fun out => out.submissions.map List.head?)
      = some [some [GpuCommand.copyBufferToBuffer (stagingBufferId s) 0
                      s.vertex_buffer.id 0 1024]] := by
  unfold RenderState.render
  rw [if_pos hdata]
  rfl

/-- Witness for C4 at a concrete frame (an empty vertex stream). -/
theorem render_copy_full_capacity_check :
    ([] : List Nat).length ≤ 1024 ∧
    (exState.render exMem [] (List.replicate 1024 2) (some 7)).map
        (fun out => out.submissions.map List.head?)
      = some [some [GpuCommand.copyBufferToBuffer (stagingBufferId exState) 0
                      exState.vertex_buffer.id 0 1024]] :=
  ⟨by simp,
   render_copy_full_capacity exState exMem [] (List.replicate 1024 2) 7 (by simp)⟩

/-- Claim C5: a successful render call's render command buffer is exactly one
render pass targeting the acquired image view, cleared to the constant blue,
binding the render pipeline, binding the persistent vertex buffer at slot 0
offset 0, issuing a single draw of vertices 0..6 with instances 0..1
(independent of the supplied vertex data), and ending the pass before the
encoder is finalized into the command buffer. -/
theorem render_pass_clear_blue_draw_six (s : RenderState) (mem : GpuMem)
    (data junk : List Nat) (v : Nat) (hdata : data.length ≤ 1024) :
    (s.render mem data junk (some v)).map
        (fun out => out.submissions.map List.getLast?)
      = some [some [GpuCommand.beginRenderPass v LoadOp.clear StoreOp.store
                      Color.BLUE,
                    GpuCommand.setPipeline s.render_pipeline,
                    GpuCommand.setVertexBuffer 0 s.vertex_buffer.id 0 1024,
                    GpuCommand.draw 0 6 0 1,
                    GpuCommand.endRenderPass]] := by
  unfold RenderState.render
  rw [if_pos hdata]
  rfl

/-- Witness for C5 at a concrete frame. -/
theorem render_pass_clear_blue_draw_six_check :
    ([1, 2] : List Nat).length ≤ 1024 ∧
    (exState.render exMem [1, 2] (List.replicate 1024 3) (some 8)).map
        (fun out => out.submissions.map List.getLast?)
      = some [some [GpuCommand.beginRenderPass 8 LoadOp.clear StoreOp.store
                      Color.BLUE,
                    GpuCommand.setPipeline exState.render_pipeline,
                    GpuCommand.setVertexBuffer 0 exState.vertex_buffer.id 0 1024,
                    GpuCommand.draw 0 6 0 1,
                    GpuCommand.endRenderPass]] :=
  ⟨by simp,
   render_pass_clear_blue_draw_six exState exMem [1, 2] (List.replicate 1024 3)
     8 (by simp)⟩

/-- Claim C9: when the serialized length is at most 1024 — including the
empty stream — the staging-buffer slice write is in bounds (the panic branch
is unreachable, the call returns a value for any acquisition outcome), and
when acquisition succeeds the frame ends without error having recorded the
full-capacity copy, the clear to blue, and the draw. -/
theorem render_write_in_bounds_and_proceeds (s : RenderState) (mem : GpuMem)
    (data junk : List Nat) (acq : Option Nat) (v : Nat)
    (hdata : data.length ≤ 1024) :
    (s.render mem data junk acq).isSome = true ∧
    (s.render mem data junk (some v)).map
        (fun out => (out.result,
          out.submissions.map (fun sub => sub.map
            (fun cb => (cb.get? 0, cb.get? 3)))))
      = some (Except.ok (),
          [[(some (GpuCommand.copyBufferToBuffer (stagingBufferId s) 0
                     s.vertex_buffer.id 0 1024),
             Option.none),
            (some (GpuCommand.beginRenderPass v LoadOp.clear StoreOp.store
                     Color.BLUE),
             some (GpuCommand.draw 0 6 0 1))]]) := by
  constructor
  · unfold RenderState.render
    rw [if_pos hdata]
    cases acq <;> rfl
  · unfold RenderState.render
    rw [if_pos hdata]
    rfl

/-- Witness for C9 at a concrete frame with zero vertex records. -/
theorem render_write_in_bounds_and_proceeds_check :
    ([] : List Nat).length ≤ 1024 ∧
    ((exState.render exMem [] (List.replicate 1024 4) Option.none).isSome = true ∧
    (exState.render exMem [] (List.replicate 1024 4) (some 10)).map
        (fun out => (out.result,
          out.submissions.map (fun sub => sub.map
            (fun cb => (cb.get? 0, cb.get? 3)))))
      = some (Except.ok (),
          [[(some (GpuCommand.copyBufferToBuffer (stagingBufferId exState) 0
                     exState.vertex_buffer.id 0 1024),
             Option.none),
            (some (GpuCommand.beginRenderPass 10 LoadOp.clear StoreOp.store
                     Color.BLUE),
             some (GpuCommand.draw 0 6 0 1))]])) :=
  ⟨by simp,
   render_write_in_bounds_and_proceeds exState exMem [] (List.replicate 1024 4)
     Option.none 10 (by simp)⟩

/-- Claim C6: `resize` (a total function — it never fails) sets the
descriptor's width and height to the new size and recreates the swap chain
from the surface and the updated descriptor; the descriptor's format, usage
and presentation mode and every other field of the state (surface, adapter,
device, queue, render pipeline, vertex buffer) are unchanged. -/
theorem resize_sets_size_recreates_swapchain_only (s : RenderState)
    (sz : PhysicalSize) :
    (s.resize sz).sc_desc.width = sz.width ∧
    (s.resize sz).sc_desc.height = sz.height ∧
    (s.resize sz).sc_desc.format = s.sc_desc.format ∧
    (s.resize sz).sc_desc.usage = s.sc_desc.usage ∧
    (s.resize sz).sc_desc.present_mode = s.sc_desc.present_mode ∧
    (s.resize sz).swap_chain = createSwapChain s.surface (s.resize sz).sc_desc ∧
    (s.resize sz).surface = s.surface ∧
    (s.resize sz).adapter = s.adapter ∧
    (s.resize sz).device = s.device ∧
    (s.resize sz).queue = s.queue ∧
    (s.resize sz).render_pipeline = s.render_pipeline ∧
    (s.resize sz).vertex_buffer = s.vertex_buffer :=
  ⟨rfl, rfl, rfl, rfl, rfl, rfl, rfl, rfl, rfl, rfl, rfl, rfl⟩

/-- Claim C7: for nonzero dimensions, resizing twice to the same size leaves
the whole state — in particular the swap-chain descriptor governing
presentable image dimensions — as after a single resize. -/
theorem resize_idempotent (s : RenderState) (w h : Nat)
    (hw : 0 < w) (hh : 0 < h) :
    (s.resize ⟨w, h⟩).resize ⟨w, h⟩ = s.resize ⟨w, h⟩ :=
  rfl

/-- Witness for C7 at a concrete state and size. -/
theorem resize_idempotent_check :
    0 < 800 ∧ 0 < 600 ∧
    (exState.resize ⟨800, 600⟩).resize ⟨800, 600⟩ = exState.resize ⟨800, 600⟩ :=
  ⟨by decide, by decide, resize_idempotent exState 800 600 (by decide) (by decide)⟩

/-- Claim C8: initialization builds the render pipeline with the fixed
configuration — counter-clockwise front face, back-face culling,
triangle-list topology, no depth/stencil, sample count 1 (mask `!0`),
replace blending on color and alpha, full (15) write mask, Uint32 index
format, color target format equal to the swap-chain descriptor's format —
and neither `resize` nor `render` (on any path) recreates or modifies it. -/
theorem pipeline_created_once_fixed_config (surface adapter device queue : Nat)
    (size : PhysicalSize) (s : RenderState) (mem : GpuMem)
    (data junk : List Nat) (acq : Option Nat) (sz : PhysicalSize) :
    (RenderState.new surface adapter device queue size).1.render_pipeline
      = { rasterization_state :=
            some ⟨FrontFace.ccw, CullMode.back, 0, 0, 0⟩
          primitive_topology := PrimitiveTopology.triangleList
          color_states :=
            [⟨(RenderState.new surface adapter device queue size).1.sc_desc.format,
              BlendDescriptor.REPLACE, BlendDescriptor.REPLACE, 15⟩]
          index_format := IndexFormat.uint32
          depth_stencil_state := Option.none
          sample_count := 1
          sample_mask := 4294967295
          alpha_to_coverage_enabled := false } ∧
    (s.resize sz).render_pipeline = s.render_pipeline ∧
    (s.render mem data junk acq).map (fun out => out.state.render_pipeline)
      = (s.render mem data junk acq).map (fun _ => s.render_pipeline) := by
  refine ⟨rfl, rfl, ?_⟩
  unfold RenderState.render
  by_cases hd : data.length ≤ 1024
  · rw [if_pos hd]
    cases acq <;> rfl
  · rw [if_neg hd]
    rfl

/-- Claim C10: after initialization the persistent vertex buffer has capacity
exactly 1024 and its GPU contents are 1024 zero bytes; `resize` and `render`
(successful or failed) keep the buffer field — identity and capacity —
unchanged, the buffer never being recreated or resized. -/
theorem vertex_buffer_zeroed_and_preserved (surface adapter device queue : Nat)
    (size : PhysicalSize) (s : RenderState) (mem : GpuMem)
    (data junk : List Nat) (acq : Option Nat) (sz : PhysicalSize) :
    (RenderState.new surface adapter device queue size).1.vertex_buffer.size
      = 1024 ∧
    lookupBuf (RenderState.new surface adapter device queue size).2
        (RenderState.new surface adapter device queue size).1.vertex_buffer.id
      = some (List.replicate 1024 0) ∧
    (s.resize sz).vertex_buffer = s.vertex_buffer ∧
    (s.render mem data junk acq).map (fun out => out.state.vertex_buffer)
      = (s.render mem data junk acq).map (fun _ => s.vertex_buffer) := by
  refine ⟨rfl, rfl, rfl, ?_⟩
  unfold RenderState.render
  by_cases hd : data.length ≤ 1024
  · rw [if_pos hd]
    cases acq <;> rfl
  · rw [if_neg hd]
    rfl

end Rakoune
